import Mathlib

/-!
Shallow embedding of the scope-guard classifier (`src/verification/scope_guard.py`)
and the conversation graph (`src/agent/graph.py`) of the healthcare agent,
together with proofs of the specification claims about them.

Modelling conventions:
* Python `str` is Lean `String` (a wrapper around `List Char`).  All inputs of
  interest are ASCII, so `str.lower`, `str.strip` and the regex word class `\w`
  are modelled on the ASCII range.
* `re.search(rf"\b{re.escape(kw)}\b", text)` is modelled by `reSearchWord`,
  valid for keywords whose first and last characters are word characters
  (true of every keyword in the tables).
* The LangGraph `MessagesState` with the `add_messages` reducer is modelled
  as a `List Message`; the update returned by a node is a list of fresh
  messages (fresh ids), which the reducer appends.
* The external reasoning engine (`create_react_agent`, an LLM) is an opaque
  parameter `reasoning : List Message → List Message` returning the messages
  it appends; the lookup tools are only reachable from inside it.
* `MemorySaver` checkpointing keyed by `thread_id` is a total map
  `String → List Message`.
-/

-- ── Python string primitives (ASCII model) ─────────────────────────────────

/-- The characters removed by Python `str.strip()` (ASCII whitespace). -/
def pyIsSpace (c : Char) : Bool :=
  c == ' ' || c == '\t' || c == '\n' || c == '\r' || c == '\x0b' || c == '\x0c'

/-- Python `str.strip()` on the underlying character list. -/
def stripList (l : List Char) : List Char :=
  ((l.dropWhile pyIsSpace).reverse.dropWhile pyIsSpace).reverse

/-- Python `str.lower()`; `Char.toLower` is exactly the ASCII case map. -/
def pyLower (s : String) : String :=
  ⟨s.data.map Char.toLower⟩

/-- Python `str.strip()`. -/
def pyStrip (s : String) : String :=
  ⟨stripList s.data⟩

-- ── Word-boundary search: model of re.search(rf"\b{re.escape(kw)}\b", text) ─

/-- The regex word class `\w` restricted to ASCII: letters, digits, underscore. -/
def isWordChar (c : Char) : Bool :=
  ('a' ≤ c && c ≤ 'z') || ('A' ≤ c && c ≤ 'Z') || ('0' ≤ c && c ≤ '9') || c == '_'

/-- Boundary `\b` before the keyword: the previous character (if any) is not
a word character.  Valid because every keyword starts with a word character. -/
def boundaryBefore : Option Char → Bool
  | none => true
  | some c => !isWordChar c

/-- Boundary `\b` after the keyword: the following character (if any) is not
a word character.  Valid because every keyword ends with a word character. -/
def boundaryAfter : List Char → Bool
  | [] => true
  | c :: _ => !isWordChar c

/-- Does `kw` match at the current position?  `prev` is the character
immediately before the position (`none` at the start of the text). -/
def matchHere (kw : List Char) (prev : Option Char) (t : List Char) : Bool :=
  kw.isPrefixOf t && boundaryBefore prev && boundaryAfter (t.drop kw.length)

/-- Scan every position of the text, carrying the previous character. -/
def searchFrom (kw : List Char) : Option Char → List Char → Bool
  | prev, [] => matchHere kw prev []
  | prev, c :: rest => matchHere kw prev (c :: rest) || searchFrom kw (some c) rest

/-- Model of `re.search(rf"\b{re.escape(kw)}\b", text) is not None`. -/
def reSearchWord (kw text : List Char) : Bool :=
  searchFrom kw none text

-- ── scope_guard.py: categories, keyword tables, messages ───────────────────

/-- The five category constants of `scope_guard.py`. -/
inductive Category
  | DATA_RETRIEVAL
  | CLINICAL_SUPPORT
  | DIAGNOSIS_REQUEST
  | TREATMENT_REQUEST
  | OUT_OF_SCOPE
  deriving DecidableEq

def DIAGNOSIS_KEYWORDS : List String :=
  ["diagnose", "what disease", "what condition",
   "what\x27s wrong with", "what is wrong with"]

def TREATMENT_KEYWORDS : List String :=
  ["prescribe", "what should i take", "recommend treatment",
   "what medication should"]

def CLINICAL_SUPPORT_KEYWORDS : List String :=
  ["interaction", "interactions", "allergy", "allergies", "allergic",
   "medication", "medications", "drug", "prescription"]

def DATA_RETRIEVAL_KEYWORDS : List String :=
  ["look up", "lookup", "find", "search", "show", "list", "get",
   "who is", "patient", "provider", "record"]

def DIAGNOSIS_BLOCK : String :=
  "I\x27m not able to provide medical diagnoses. Please consult " ++
  "a qualified healthcare provider for diagnostic assessments."

def TREATMENT_BLOCK : String :=
  "I\x27m not able to recommend treatments or prescribe medications. " ++
  "Please consult a qualified healthcare provider."

def OUT_OF_SCOPE_BLOCK : String :=
  "I\x27m a healthcare records assistant. I can help you look up " ++
  "patient information, check drug interactions, and review allergies."

/-- The `BLOCK_MESSAGES` dict: a blocking category maps to its canonical
message; the two allowed categories have no entry. -/
def BLOCK_MESSAGES : Category → Option String
  | Category.DIAGNOSIS_REQUEST => some DIAGNOSIS_BLOCK
  | Category.TREATMENT_REQUEST => some TREATMENT_BLOCK
  | Category.OUT_OF_SCOPE => some OUT_OF_SCOPE_BLOCK
  | _ => none

def CLINICAL_DISCLAIMER : String :=
  "\n\n---\n*Disclaimer: This information is for clinical support only. " ++
  "Please verify with qualified healthcare providers.*"

/-- Function `_matches(text, keywords)`: any keyword occurs as a whole
word/phrase. -/
def _matches (text : String) (keywords : List String) : Bool :=
  keywords.any fun kw => reSearchWord kw.data text.data

/-- The normalisation `user_input.lower().strip()` done by `classify_input`. -/
def normalized (user_input : String) : String :=
  pyStrip (pyLower user_input)

/-- Function `classify_input(user_input)`: first-match-wins over the ordered category
checks diagnosis, treatment, clinical-support, data-retrieval, else
out-of-scope. -/
def classify_input (user_input : String) : Category × Option String :=
  let text := normalized user_input
  if _matches text DIAGNOSIS_KEYWORDS then
    (Category.DIAGNOSIS_REQUEST, BLOCK_MESSAGES Category.DIAGNOSIS_REQUEST)
  else if _matches text TREATMENT_KEYWORDS then
    (Category.TREATMENT_REQUEST, BLOCK_MESSAGES Category.TREATMENT_REQUEST)
  else if _matches text CLINICAL_SUPPORT_KEYWORDS then
    (Category.CLINICAL_SUPPORT, none)
  else if _matches text DATA_RETRIEVAL_KEYWORDS then
    (Category.DATA_RETRIEVAL, none)
  else
    (Category.OUT_OF_SCOPE, BLOCK_MESSAGES Category.OUT_OF_SCOPE)

/-- Function `apply_scope_guard(user_input)`: `(is_allowed, block_message)` with
`is_allowed = (block_message is None)`. -/
def apply_scope_guard (user_input : String) : Bool × Option String :=
  match (classify_input user_input).2 with
  | some block_message => (false, some block_message)
  | none => (true, none)

-- ── graph.py: messages, nodes, routing, turn execution ─────────────────────

/-- Message roles: `HumanMessage` (`type == "human"`), `AIMessage`, tool
messages produced inside the ReAct agent. -/
inductive Role
  | user
  | assistant
  | tool
  deriving DecidableEq

structure Message where
  role : Role
  content : String
  deriving DecidableEq

/-- Targets of the conditional edge after the guard node. -/
inductive Route
  | agent
  | toEnd
  deriving DecidableEq

/-- Graph nodes, used to record which nodes a turn visits. -/
inductive Node
  | scope_guard
  | agent
  | disclaimer
  deriving DecidableEq

/-- Node `_scope_guard_node`: the update it returns (appended by the
`add_messages` reducer).  The graph always invokes it with the user message
present, so the state is never empty. -/
def scope_guard_update (state : List Message) : List Message :=
  match state.getLast? with
  | none => []
  | some user_message =>
    let v := apply_scope_guard user_message.content
    if v.1 then []
    else
      match v.2 with
      | some block_message => [⟨Role.assistant, block_message⟩]
      | none => []

/-- Edge `_route_after_guard`: blocked iff the last message is an `AIMessage`. -/
def route_after_guard (state : List Message) : Route :=
  match state.getLast? with
  | none => Route.agent
  | some last => if last.role = Role.assistant then Route.toEnd else Route.agent

/-- Node `_append_disclaimer`: the update it returns.  It re-runs `classify_input`
on the latest human message (classification recomputed, not cached); on
`CLINICAL_SUPPORT` it returns a fresh `AIMessage` carrying the content of
the last reply suffixed with the disclaimer. -/
def append_disclaimer_update (state : List Message) : List Message :=
  let user_messages := state.filter fun m => m.role == Role.user
  match user_messages.getLast? with
  | none => []
  | some latest_user =>
    if (classify_input latest_user.content).1 = Category.CLINICAL_SUPPORT then
      match state.getLast? with
      | some last_ai =>
        if last_ai.role = Role.assistant then
          [⟨Role.assistant, last_ai.content ++ CLINICAL_DISCLAIMER⟩]
        else []
      | none => []
    else []

/-- One execution of the disclaimer node: state plus its appended update. -/
def disclaimerStep (state : List Message) : List Message :=
  state ++ append_disclaimer_update state

/-- The state when the guard node runs: checkpointed history plus the new
user message (merged by `add_messages`). -/
def initialState (history : List Message) (input : String) : List Message :=
  history ++ [⟨Role.user, input⟩]

/-- The state after the guard update is merged. -/
def stateAfterGuard (history : List Message) (input : String) : List Message :=
  initialState history input ++ scope_guard_update (initialState history input)

/-- One turn of the compiled graph: guard, conditional edge, optionally the
ReAct agent (`reasoning`) and the disclaimer node.  Also records the list of
nodes the turn visited; the lookup tools are callable only from inside the
`Node.agent` step. -/
def runTurnTrace (reasoning : List Message → List Message)
    (history : List Message) (input : String) : List Message × List Node :=
  let s1 := stateAfterGuard history input
  match route_after_guard s1 with
  | Route.toEnd => (s1, [Node.scope_guard])
  | Route.agent =>
    let s2 := s1 ++ reasoning s1
    (disclaimerStep s2, [Node.scope_guard, Node.agent, Node.disclaimer])

/-- The message state produced by one turn. -/
def runTurn (reasoning : List Message → List Message)
    (history : List Message) (input : String) : List Message :=
  (runTurnTrace reasoning history input).1

/-- Helper `run_agent` returns `result["messages"][-1].content`. -/
def finalText (msgs : List Message) : String :=
  match msgs.getLast? with
  | some m => m.content
  | none => ""

/-- Contiguous-substring test on character lists. -/
def containsSub (needle : List Char) : List Char → Bool
  | [] => needle.isPrefixOf []
  | c :: rest => needle.isPrefixOf (c :: rest) || containsSub needle rest

/-- Python `pat in s` on strings. -/
def containsSubstr (s pat : String) : Bool :=
  containsSub pat.data s.data

-- ── graph.py: MemorySaver thread store and run_agent ───────────────────────

/-- The `MemorySaver` checkpointer: per-`thread_id` message history. -/
def Store : Type := String → List Message

def emptyStore : Store := fun _ => []

/-- Function `run_agent(user_input, thread_id)`: run one turn against the checkpointed
history of the thread, write the resulting state back under the same
`thread_id`, and return the content of the last message.  (A caller passing
`thread_id=None` gets a fresh random id; modelled by the caller choosing an
unused `thread_id`.) -/
def run_agent (reasoning : List Message → List Message)
    (store : Store) (thread_id : String) (user_input : String) :
    Store × String :=
  let msgs := runTurn reasoning (store thread_id) user_input
  (fun t => if t = thread_id then msgs else store t, finalText msgs)

-- ── Helper lemmas: ASCII lowercasing ───────────────────────────────────────

theorem toNat_ofNat_valid {m : Nat} (h : m.isValidChar) :
    (Char.ofNat m).toNat = m := by
  rw [Char.ofNat, dif_pos h]
  rfl

theorem toLower_toLower (c : Char) : c.toLower.toLower = c.toLower := by
  unfold Char.toLower
  by_cases h : c.toNat ≥ 65 ∧ c.toNat ≤ 90
  · rw [if_pos h]
    have hv : (c.toNat + 32).isValidChar := Or.inl (by omega)
    have ht : (Char.ofNat (c.toNat + 32)).toNat = c.toNat + 32 :=
      toNat_ofNat_valid hv
    rw [if_neg (by omega)]
  · rw [if_neg h, if_neg h]

theorem map_toLower_idem (l : List Char) :
    (l.map Char.toLower).map Char.toLower = l.map Char.toLower := by
  induction l with
  | nil => rfl
  | cons c t ih => simp only [List.map_cons, ih, toLower_toLower]

-- ── Helper lemmas: word-boundary search soundness ──────────────────────────

theorem matchHere_sound {kw : List Char} {prev : Option Char} {t : List Char}
    (h : matchHere kw prev t = true) :
    ∃ post, t = kw ++ post ∧ boundaryBefore prev = true ∧
      boundaryAfter post = true := by
  unfold matchHere at h
  simp only [Bool.and_eq_true] at h
  obtain ⟨⟨hp, hb⟩, ha⟩ := h
  obtain ⟨post, hpost⟩ := List.isPrefixOf_iff_prefix.mp hp
  refine ⟨post, hpost.symm, hb, ?_⟩
  rw [hpost.symm, List.drop_left] at ha
  exact ha

theorem searchFrom_sound {kw : List Char} :
    ∀ (t : List Char) (prev : Option Char), searchFrom kw prev t = true →
    ∃ pre post, t = pre ++ kw ++ post
      ∧ (pre.getLast? = none → boundaryBefore prev = true)
      ∧ (∀ c, pre.getLast? = some c → isWordChar c = false)
      ∧ boundaryAfter post = true := by
  intro t
  induction t with
  | nil =>
    intro prev h
    obtain ⟨post, heq, hb, ha⟩ := matchHere_sound (t := []) h
    refine ⟨[], post, by simpa using heq, fun _ => hb, ?_, ha⟩
    intro c hc
    simp at hc
  | cons c rest ih =>
    intro prev h
    rcases Bool.or_eq_true_iff.mp h with hm | hs
    · obtain ⟨post, heq, hb, ha⟩ := matchHere_sound hm
      refine ⟨[], post, by simpa using heq, fun _ => hb, ?_, ha⟩
      intro x hx
      simp at hx
    · obtain ⟨pre, post, heq, h1, h2, h3⟩ := ih (some c) hs
      refine ⟨c :: pre, post, by simp [heq], ?_, ?_, h3⟩
      · intro habs
        simp at habs
      · intro x hx
        cases pre with
        | nil =>
          simp at hx
          subst hx
          have := h1 rfl
          simpa [boundaryBefore] using this
        | cons p ps =>
          rw [List.getLast?_cons_cons] at hx
          exact h2 x hx

-- ── Helper lemmas: classifier outcomes ─────────────────────────────────────

theorem classify_cases (s : String) :
    classify_input s = (Category.DIAGNOSIS_REQUEST, some DIAGNOSIS_BLOCK)
    ∨ classify_input s = (Category.TREATMENT_REQUEST, some TREATMENT_BLOCK)
    ∨ classify_input s = (Category.CLINICAL_SUPPORT, none)
    ∨ classify_input s = (Category.DATA_RETRIEVAL, none)
    ∨ classify_input s = (Category.OUT_OF_SCOPE, some OUT_OF_SCOPE_BLOCK) := by
  unfold classify_input
  dsimp only
  split
  · exact Or.inl rfl
  · split
    · exact Or.inr (Or.inl rfl)
    · split
      · exact Or.inr (Or.inr (Or.inl rfl))
      · split
        · exact Or.inr (Or.inr (Or.inr (Or.inl rfl)))
        · exact Or.inr (Or.inr (Or.inr (Or.inr rfl)))

-- ── Helper lemmas: substring containment ───────────────────────────────────

theorem containsSub_append_self (needle : List Char) :
    ∀ pre : List Char, containsSub needle (pre ++ needle) = true := by
  intro pre
  induction pre with
  | nil =>
    cases needle with
    | nil => rfl
    | cons c rest =>
      simp only [List.nil_append, containsSub, Bool.or_eq_true]
      exact Or.inl ( List.isPrefixOf_iff_prefix.mpr (List.prefix_refl _))
  | cons a pre ih =>
    simp only [List.cons_append, containsSub, Bool.or_eq_true]
    exact Or.inr ih

theorem containsSubstr_append_right (r d : String) :
    containsSubstr (r ++ d) d = true := by
  unfold containsSubstr
  rw [String.data_append]
  exact containsSub_append_self d.data r.data

-- ── Helper lemmas: whitespace-only inputs ──────────────────────────────────

theorem toLower_of_space {c : Char} (h : pyIsSpace c = true) :
    Char.toLower c = c := by
  simp only [pyIsSpace, Bool.or_eq_true, beq_iff_eq] at h
  rcases h with ((((h | h) | h) | h) | h) | h <;> subst h <;> decide

theorem map_toLower_of_spaces {l : List Char} (h : ∀ c ∈ l, pyIsSpace c = true) :
    l.map Char.toLower = l := by
  induction l with
  | nil => rfl
  | cons c t ih =>
    simp only [List.map_cons]
    rw [toLower_of_space (h c (List.mem_cons_self c t)),
      ih fun x hx => h x (List.mem_cons_of_mem c hx)]

theorem dropWhile_nil_of_all {p : Char → Bool} {l : List Char}
    (h : ∀ c ∈ l, p c = true) : l.dropWhile p = [] := by
  induction l with
  | nil => rfl
  | cons c t ih =>
    rw [List.dropWhile_cons, if_pos (h c (List.mem_cons_self c t))]
    exact ih fun x hx => h x (List.mem_cons_of_mem c hx)

theorem normalized_of_spaces {s : String}
    (h : ∀ c ∈ s.data, pyIsSpace c = true) : normalized s = "" := by
  unfold normalized pyStrip pyLower stripList
  simp only
  rw [map_toLower_of_spaces h, dropWhile_nil_of_all h]
  rfl

-- ── Helper lemmas: guard node and routing ──────────────────────────────────

theorem initialState_getLast (history : List Message) (input : String) :
    (initialState history input).getLast? = some ⟨Role.user, input⟩ :=
  List.getLast?_concat history

theorem guard_update_blocked {history : List Message} {input m : String}
    (hb : apply_scope_guard input = (false, some m)) :
    scope_guard_update (initialState history input) = [⟨Role.assistant, m⟩] := by
  unfold scope_guard_update
  rw [initialState_getLast]
  simp only [hb]
  rfl

theorem guard_update_allowed {history : List Message} {input : String}
    (ha : apply_scope_guard input = (true, none)) :
    scope_guard_update (initialState history input) = [] := by
  unfold scope_guard_update
  rw [initialState_getLast]
  simp only [ha]
  rfl

theorem stateAfterGuard_blocked {history : List Message} {input m : String}
    (hb : apply_scope_guard input = (false, some m)) :
    stateAfterGuard history input
      = history ++ [⟨Role.user, input⟩, ⟨Role.assistant, m⟩] := by
  unfold stateAfterGuard
  rw [guard_update_blocked hb]
  simp [initialState]

theorem stateAfterGuard_allowed {history : List Message} {input : String}
    (ha : apply_scope_guard input = (true, none)) :
    stateAfterGuard history input = initialState history input := by
  unfold stateAfterGuard
  rw [guard_update_allowed ha]
  simp

theorem route_blocked {history : List Message} {input m : String}
    (hb : apply_scope_guard input = (false, some m)) :
    route_after_guard (stateAfterGuard history input) = Route.toEnd := by
  rw [stateAfterGuard_blocked hb]
  unfold route_after_guard
  have : (history ++ [⟨Role.user, input⟩, ⟨Role.assistant, m⟩] :
      List Message).getLast? = some ⟨Role.assistant, m⟩ := by
    rw [show (history ++ [(⟨Role.user, input⟩ : Message), ⟨Role.assistant, m⟩])
        = (history ++ [⟨Role.user, input⟩]) ++ [⟨Role.assistant, m⟩] by simp,
      List.getLast?_concat]
  rw [this]
  rfl

theorem route_allowed {history : List Message} {input : String}
    (ha : apply_scope_guard input = (true, none)) :
    route_after_guard (stateAfterGuard history input) = Route.agent := by
  rw [stateAfterGuard_allowed ha]
  unfold route_after_guard
  rw [initialState_getLast]
  rfl

theorem runTurn_blocked (f : List Message → List Message)
    (history : List Message) (input m : String)
    (hb : apply_scope_guard input = (false, some m)) :
    runTurnTrace f history input
      = (history ++ [⟨Role.user, input⟩, ⟨Role.assistant, m⟩],
         [Node.scope_guard]) := by
  unfold runTurnTrace
  dsimp only
  rw [route_blocked hb, stateAfterGuard_blocked hb]

theorem runTurn_allowed (f : List Message → List Message)
    (history : List Message) (input : String)
    (ha : apply_scope_guard input = (true, none)) :
    runTurnTrace f history input
      = (disclaimerStep (initialState history input
            ++ f (initialState history input)),
         [Node.scope_guard, Node.agent, Node.disclaimer]) := by
  unfold runTurnTrace
  dsimp only
  rw [route_allowed ha, stateAfterGuard_allowed ha]

theorem runTurn_extends (f : List Message → List Message)
    (history : List Message) (input : String) :
    ∃ tl, runTurn f history input = history ++ ⟨Role.user, input⟩ :: tl := by
  unfold runTurn runTurnTrace
  dsimp only
  cases hr : route_after_guard (stateAfterGuard history input) with
  | toEnd =>
    refine ⟨scope_guard_update (initialState history input), ?_⟩
    simp [stateAfterGuard, initialState]
  | agent =>
    refine ⟨(scope_guard_update (initialState history input)
        ++ f (stateAfterGuard history input))
        ++ append_disclaimer_update (stateAfterGuard history input
            ++ f (stateAfterGuard history input)), ?_⟩
    simp [disclaimerStep, stateAfterGuard, initialState]

-- ── Claims ─────────────────────────────────────────────────────────────────

/-- Claim C1: any input containing a diagnosis keyword as a whole word/phrase
classifies as `DIAGNOSIS_REQUEST` with the diagnosis block message, and
`apply_scope_guard` blocks it with that message, regardless of any other
keywords present; any input with a treatment keyword but no diagnosis keyword
classifies as `TREATMENT_REQUEST` (the keyword sets are checked in the fixed
order diagnosis, treatment, clinical-support, data-retrieval, first match
wins). -/
theorem C1_diagnosis_preempts (s t : String)
    (hd : _matches (normalized s) DIAGNOSIS_KEYWORDS = true)
    (hnd : _matches (normalized t) DIAGNOSIS_KEYWORDS = false)
    (ht : _matches (normalized t) TREATMENT_KEYWORDS = true) :
    classify_input s = (Category.DIAGNOSIS_REQUEST, some DIAGNOSIS_BLOCK)
    ∧ apply_scope_guard s = (false, some DIAGNOSIS_BLOCK)
    ∧ classify_input t = (Category.TREATMENT_REQUEST, some TREATMENT_BLOCK) := by
  have hcs : classify_input s = (Category.DIAGNOSIS_REQUEST, some DIAGNOSIS_BLOCK) := by
    unfold classify_input
    dsimp only
    rw [if_pos hd]
    rfl
  have hct : classify_input t = (Category.TREATMENT_REQUEST, some TREATMENT_BLOCK) := by
    unfold classify_input
    dsimp only
    rw [if_neg (by simp [hnd]), if_pos ht]
    rfl
  refine ⟨hcs, ?_, hct⟩
  unfold apply_scope_guard
  rw [hcs]

/-- Witness for C1 at concrete inputs: a query mentioning both "diagnose" and
clinical/data keywords is blocked as a diagnosis request, and a query with a
treatment keyword but no diagnosis keyword is a treatment request. -/
theorem C1_witness :
    _matches (normalized "Diagnose the drug interaction") DIAGNOSIS_KEYWORDS = true
    ∧ _matches (normalized "Prescribe medication and show patient record")
        DIAGNOSIS_KEYWORDS = false
    ∧ _matches (normalized "Prescribe medication and show patient record")
        TREATMENT_KEYWORDS = true
    ∧ classify_input "Diagnose the drug interaction"
        = (Category.DIAGNOSIS_REQUEST, some DIAGNOSIS_BLOCK)
    ∧ apply_scope_guard "Diagnose the drug interaction"
        = (false, some DIAGNOSIS_BLOCK)
    ∧ classify_input "Prescribe medication and show patient record"
        = (Category.TREATMENT_REQUEST, some TREATMENT_BLOCK) := by
  obtain ⟨h1, h2, h3⟩ := C1_diagnosis_preempts
    "Diagnose the drug interaction"
    "Prescribe medication and show patient record"
    (by decide) (by decide) (by decide)
  exact ⟨by decide, by decide, by decide, h1, h2, h3⟩

/-- Claim C2: on a blocked input (diagnosis, treatment, or out-of-scope), the
turn visits only the guard node — the reasoning agent and hence every tool are
never reached, for every possible reasoning engine `f` — the guard appends one
assistant message whose content is exactly the canonical block message, the
conditional edge routes straight to `END`, and the final assistant text of
the turn equals that block message. -/
theorem C2_blocked_short_circuit (f : List Message → List Message)
    (history : List Message) (input m : String)
    (hb : apply_scope_guard input = (false, some m)) :
    runTurnTrace f history input
      = (history ++ [⟨Role.user, input⟩, ⟨Role.assistant, m⟩],
         [Node.scope_guard])
    ∧ finalText (runTurn f history input) = m := by
  have h1 := runTurn_blocked f history input m hb
  refine ⟨h1, ?_⟩
  unfold runTurn
  rw [h1]
  unfold finalText
  rw [show (history ++ [(⟨Role.user, input⟩ : Message), ⟨Role.assistant, m⟩])
      = (history ++ [⟨Role.user, input⟩]) ++ [⟨Role.assistant, m⟩] by simp,
    List.getLast?_concat]

/-- Witness for C2: the blocked diagnosis turn from the end-to-end scenario,
run against an arbitrary stub reasoning engine, never leaves the guard node
and answers with exactly the diagnosis block message. -/
theorem C2_witness :
    apply_scope_guard "Diagnose what\x27s wrong with me"
      = (false, some DIAGNOSIS_BLOCK)
    ∧ runTurnTrace (fun _ => [⟨Role.assistant, "LLM reply"⟩]) []
        "Diagnose what\x27s wrong with me"
      = ([⟨Role.user, "Diagnose what\x27s wrong with me"⟩,
          ⟨Role.assistant, DIAGNOSIS_BLOCK⟩], [Node.scope_guard])
    ∧ finalText (runTurn (fun _ => [⟨Role.assistant, "LLM reply"⟩]) []
        "Diagnose what\x27s wrong with me") = DIAGNOSIS_BLOCK := by
  obtain ⟨h1, h2⟩ := C2_blocked_short_circuit
    (fun _ => [⟨Role.assistant, "LLM reply"⟩]) []
    "Diagnose what\x27s wrong with me" DIAGNOSIS_BLOCK (by decide)
  exact ⟨by decide, by simpa using h1, h2⟩

/-- Claim C4 counterexample: the disclaimer step does NOT modify the
last assistant reply in place.  On a ClinicalSupport turn the node returns a
fresh assistant message, which the `add_messages` reducer appends: the history
length grows from 2 to 3, and the result differs from the in-place
modification the claim describes. -/
theorem C4_counterexample :
    (disclaimerStep
        [⟨Role.user, "Review the medication list"⟩,
         ⟨Role.assistant, "Here are the medications."⟩]).length = 3
    ∧ disclaimerStep
        [⟨Role.user, "Review the medication list"⟩,
         ⟨Role.assistant, "Here are the medications."⟩]
      ≠ [⟨Role.user, "Review the medication list"⟩,
         ⟨Role.assistant, "Here are the medications." ++ CLINICAL_DISCLAIMER⟩] := by
  constructor
  · decide
  · decide

/-- Claim C4 (amended): the disclaimer step leaves every existing history
element unchanged (the prior state is an unmodified prefix of the result) and
appends at most one new assistant message, whose content is that of the last
assistant reply suffixed with the disclaimer; history is append-only,
but a ClinicalSupport turn therefore ends with two assistant messages (the
reply and its disclaimed copy) rather than an in-place edit of one. -/
theorem C4_append_only (state : List Message) :
    (disclaimerStep state).take state.length = state
    ∧ (append_disclaimer_update state = []
       ∨ ∃ last_ai, state.getLast? = some last_ai
           ∧ last_ai.role = Role.assistant
           ∧ append_disclaimer_update state
              = [⟨Role.assistant, last_ai.content ++ CLINICAL_DISCLAIMER⟩]) := by
  constructor
  · unfold disclaimerStep
    exact List.take_left state _
  · unfold append_disclaimer_update
    dsimp only
    cases hu : (state.filter fun m => m.role == Role.user).getLast? with
    | none => exact Or.inl rfl
    | some latest_user =>
      dsimp only
      by_cases hc :
          (classify_input latest_user.content).1 = Category.CLINICAL_SUPPORT
      · rw [if_pos hc]
        cases hl : state.getLast? with
        | none => exact Or.inl rfl
        | some last_ai =>
          dsimp only
          by_cases hr : last_ai.role = Role.assistant
          · rw [if_pos hr]
            exact Or.inr ⟨last_ai, rfl, hr, rfl⟩
          · rw [if_neg hr]
            exact Or.inl rfl
      · rw [if_neg hc]
        exact Or.inl rfl

/-- Claim C5: `apply_scope_guard` returns `allowed = (block message is none)`
and passes the classifier message through, so a block message is present iff
`allowed` is false; an input is allowed exactly when its category is
`CLINICAL_SUPPORT` or `DATA_RETRIEVAL`; and the classifier message component
always equals the static total `BLOCK_MESSAGES` table at its category, which
maps each of the three blocking categories to exactly one canonical message. -/
theorem C5_verdict_message (s : String) :
    apply_scope_guard s = (((classify_input s).2).isNone, (classify_input s).2)
    ∧ ((apply_scope_guard s).2 ≠ none ↔ (apply_scope_guard s).1 = false)
    ∧ ((apply_scope_guard s).1 = true
        ↔ ((classify_input s).1 = Category.CLINICAL_SUPPORT
           ∨ (classify_input s).1 = Category.DATA_RETRIEVAL))
    ∧ (classify_input s).2 = BLOCK_MESSAGES (classify_input s).1
    ∧ BLOCK_MESSAGES Category.DIAGNOSIS_REQUEST = some DIAGNOSIS_BLOCK
    ∧ BLOCK_MESSAGES Category.TREATMENT_REQUEST = some TREATMENT_BLOCK
    ∧ BLOCK_MESSAGES Category.OUT_OF_SCOPE = some OUT_OF_SCOPE_BLOCK := by
  rcases classify_cases s with h | h | h | h | h <;>
    simp [apply_scope_guard, h, BLOCK_MESSAGES]

/-- Claim C6: keyword matching has word-boundary semantics — whenever the
word search fires, the keyword occurs with no word character adjacent on
either side, so it never fires as a substring of a longer word; in
particular "list" inside "specialist" does not match and
"I need a specialist recommendation" is OUT_OF_SCOPE, not DATA_RETRIEVAL. -/
theorem C6_word_boundary (kw text : List Char)
    (h : reSearchWord kw text = true) :
    classify_input "I need a specialist recommendation"
      = (Category.OUT_OF_SCOPE, some OUT_OF_SCOPE_BLOCK)
    ∧ ∃ pre post, text = pre ++ kw ++ post
        ∧ (∀ c, pre.getLast? = some c → isWordChar c = false)
        ∧ (∀ c, post.head? = some c → isWordChar c = false) := by
  refine ⟨by decide, ?_⟩
  obtain ⟨pre, post, heq, _h1, h2, h3⟩ := searchFrom_sound text none h
  refine ⟨pre, post, heq, h2, ?_⟩
  intro c hc
  cases post with
  | nil => simp at hc
  | cons p ps =>
    simp only [List.head?_cons, Option.some_inj] at hc
    subst hc
    simpa [boundaryAfter] using h3

/-- Witness for C6: "list" does match the text "show the list now" as a whole
word, and the decomposition with non-word boundary characters exists. -/
theorem C6_witness :
    reSearchWord "list".data "show the list now".data = true
    ∧ (classify_input "I need a specialist recommendation"
        = (Category.OUT_OF_SCOPE, some OUT_OF_SCOPE_BLOCK)
      ∧ ∃ pre post, "show the list now".data = pre ++ "list".data ++ post
          ∧ (∀ c, pre.getLast? = some c → isWordChar c = false)
          ∧ (∀ c, post.head? = some c → isWordChar c = false)) :=
  ⟨by decide, C6_word_boundary "list".data "show the list now".data (by decide)⟩

/-- Claim C7: `classify_input` is total — it is a Lean function, so it returns
exactly one of the five categories for every string and can raise no
exception — and any input matching none of the four keyword sets resolves to
`OUT_OF_SCOPE` with the canonical out-of-scope message rather than an error. -/
theorem C7_total_unmatched_out_of_scope (s : String)
    (h1 : _matches (normalized s) DIAGNOSIS_KEYWORDS = false)
    (h2 : _matches (normalized s) TREATMENT_KEYWORDS = false)
    (h3 : _matches (normalized s) CLINICAL_SUPPORT_KEYWORDS = false)
    (h4 : _matches (normalized s) DATA_RETRIEVAL_KEYWORDS = false) :
    classify_input s = (Category.OUT_OF_SCOPE, some OUT_OF_SCOPE_BLOCK)
    ∧ ∀ t : String,
        (classify_input t).1 = Category.DATA_RETRIEVAL
        ∨ (classify_input t).1 = Category.CLINICAL_SUPPORT
        ∨ (classify_input t).1 = Category.DIAGNOSIS_REQUEST
        ∨ (classify_input t).1 = Category.TREATMENT_REQUEST
        ∨ (classify_input t).1 = Category.OUT_OF_SCOPE := by
  constructor
  · unfold classify_input
    dsimp only
    rw [if_neg (by simp [h1]), if_neg (by simp [h2]), if_neg (by simp [h3]),
      if_neg (by simp [h4])]
    rfl
  · intro t
    rcases classify_cases t with h | h | h | h | h <;> simp [h]

/-- Witness for C7: "Tell me a joke" matches no keyword set and resolves to
the out-of-scope category and message. -/
theorem C7_witness :
    _matches (normalized "Tell me a joke") DIAGNOSIS_KEYWORDS = false
    ∧ _matches (normalized "Tell me a joke") TREATMENT_KEYWORDS = false
    ∧ _matches (normalized "Tell me a joke") CLINICAL_SUPPORT_KEYWORDS = false
    ∧ _matches (normalized "Tell me a joke") DATA_RETRIEVAL_KEYWORDS = false
    ∧ (classify_input "Tell me a joke"
        = (Category.OUT_OF_SCOPE, some OUT_OF_SCOPE_BLOCK)
      ∧ ∀ t : String,
          (classify_input t).1 = Category.DATA_RETRIEVAL
          ∨ (classify_input t).1 = Category.CLINICAL_SUPPORT
          ∨ (classify_input t).1 = Category.DIAGNOSIS_REQUEST
          ∨ (classify_input t).1 = Category.TREATMENT_REQUEST
          ∨ (classify_input t).1 = Category.OUT_OF_SCOPE) :=
  ⟨by decide, by decide, by decide, by decide,
    C7_total_unmatched_out_of_scope "Tell me a joke"
      (by decide) (by decide) (by decide) (by decide)⟩

/-- Claim C8: classification is case-insensitive — lowercasing the input
first never changes the result (the classifier lowercases internally and
ASCII lowercasing is idempotent), and in particular "LOOK UP PATIENT" and
"look up patient" classify identically. -/
theorem C8_case_insensitive (s : String) :
    classify_input (pyLower s) = classify_input s
    ∧ classify_input "LOOK UP PATIENT" = classify_input "look up patient" := by
  constructor
  · have hll : pyLower (pyLower s) = pyLower s := by
      unfold pyLower
      exact congrArg String.mk (map_toLower_idem s.data)
    have hn : normalized (pyLower s) = normalized s := by
      unfold normalized
      rw [hll]
    unfold classify_input
    dsimp only
    rw [hn]
  · decide

/-- Claim C10: the empty string and every whitespace-only input normalise to
the empty text, match no keyword, and therefore classify as `OUT_OF_SCOPE`
with the canonical out-of-scope message; `apply_scope_guard` blocks them with
that message. -/
theorem C10_whitespace_out_of_scope (s : String)
    (h : ∀ c ∈ s.data, pyIsSpace c = true) :
    classify_input s = (Category.OUT_OF_SCOPE, some OUT_OF_SCOPE_BLOCK)
    ∧ apply_scope_guard s = (false, some OUT_OF_SCOPE_BLOCK) := by
  have hn : normalized s = "" := normalized_of_spaces h
  have hc : classify_input s = (Category.OUT_OF_SCOPE, some OUT_OF_SCOPE_BLOCK) := by
    unfold classify_input
    dsimp only
    rw [hn]
    decide
  refine ⟨hc, ?_⟩
  unfold apply_scope_guard
  rw [hc]

/-- Witness for C10: a tab-and-spaces input is whitespace-only and is blocked
as out of scope (the empty string satisfies the hypothesis vacuously). -/
theorem C10_witness :
    (∀ c ∈ ("  \t ").data, pyIsSpace c = true)
    ∧ (classify_input "  \t " = (Category.OUT_OF_SCOPE, some OUT_OF_SCOPE_BLOCK)
      ∧ apply_scope_guard "  \t " = (false, some OUT_OF_SCOPE_BLOCK)) :=
  ⟨by decide, C10_whitespace_out_of_scope "  \t " (by decide)⟩

-- ── Helper lemmas: run_agent and the thread store ──────────────────────────

theorem run_agent_other (f : List Message → List Message) (store : Store)
    (tid input t : String) (h : t ≠ tid) :
    (run_agent f store tid input).1 t = store t := by
  unfold run_agent
  dsimp only
  rw [if_neg h]

theorem run_agent_self (f : List Message → List Message) (store : Store)
    (tid input : String) :
    (run_agent f store tid input).1 tid = runTurn f (store tid) input := by
  unfold run_agent
  dsimp only
  rw [if_pos rfl]

theorem run_agent_resp (f : List Message → List Message) (store : Store)
    (tid input : String) :
    (run_agent f store tid input).2 = finalText (runTurn f (store tid) input) :=
  rfl

theorem blocked_final (f : List Message → List Message)
    (history : List Message) (input m : String)
    (hb : apply_scope_guard input = (false, some m)) :
    finalText (runTurn f history input) = m := by
  unfold runTurn
  rw [runTurn_blocked f history input m hb]
  unfold finalText
  rw [show (history ++ [(⟨Role.user, input⟩ : Message), ⟨Role.assistant, m⟩])
      = (history ++ [⟨Role.user, input⟩]) ++ [⟨Role.assistant, m⟩] by simp,
    List.getLast?_concat]

/-- Claim C9: thread isolation and ordering — a turn on one `thread_id` never
touches the history of any other thread, a turn on a thread only appends (the
prior history stays a prefix, followed by the new user turn); and in the
concrete scenario, a blocked turn on thread "A" followed by a different
blocked turn on thread "B" each return their own canonical block message,
while the later turn on "B" leaves the history of "A" untouched. -/
theorem C9_thread_isolation (f : List Message → List Message) (store : Store)
    (a b ia : String) (hab : a ≠ b) :
    (run_agent f store a ia).1 b = store b
    ∧ (∃ tl, (run_agent f store a ia).1 a
        = store a ++ ⟨Role.user, ia⟩ :: tl)
    ∧ (run_agent f emptyStore "A" "Diagnose this rash").2 = DIAGNOSIS_BLOCK
    ∧ (run_agent f (run_agent f emptyStore "A" "Diagnose this rash").1
        "B" "Prescribe antibiotics").2 = TREATMENT_BLOCK
    ∧ (run_agent f (run_agent f emptyStore "A" "Diagnose this rash").1
        "B" "Prescribe antibiotics").1 "A"
      = (run_agent f emptyStore "A" "Diagnose this rash").1 "A"
    ∧ (run_agent f emptyStore "A" "Diagnose this rash").1 "A"
      = [⟨Role.user, "Diagnose this rash"⟩,
         ⟨Role.assistant, DIAGNOSIS_BLOCK⟩] := by
  refine ⟨run_agent_other f store a ia b (Ne.symm hab), ?_, ?_, ?_, ?_, ?_⟩
  · rw [run_agent_self]
    exact runTurn_extends f (store a) ia
  · rw [run_agent_resp]
    exact blocked_final f _ _ DIAGNOSIS_BLOCK (by decide)
  · rw [run_agent_resp]
    exact blocked_final f _ _ TREATMENT_BLOCK (by decide)
  · exact run_agent_other f _ "B" "Prescribe antibiotics" "A" (by decide)
  · rw [run_agent_self]
    unfold runTurn
    rw [runTurn_blocked f (emptyStore "A") "Diagnose this rash" DIAGNOSIS_BLOCK
      (by decide)]
    rfl

/-- Witness for C9 at concrete threads "A" ≠ "B" with a stub reasoning
engine. -/
theorem C9_witness :
    ("A" : String) ≠ "B"
    ∧ ((run_agent (fun _ => []) emptyStore "A" "look up records").1 "B"
        = emptyStore "B"
      ∧ (∃ tl, (run_agent (fun _ => []) emptyStore "A" "look up records").1 "A"
          = emptyStore "A" ++ ⟨Role.user, "look up records"⟩ :: tl)
      ∧ (run_agent (fun _ => []) emptyStore "A" "Diagnose this rash").2
          = DIAGNOSIS_BLOCK
      ∧ (run_agent (fun _ => [])
          (run_agent (fun _ => []) emptyStore "A" "Diagnose this rash").1
          "B" "Prescribe antibiotics").2 = TREATMENT_BLOCK
      ∧ (run_agent (fun _ => [])
          (run_agent (fun _ => []) emptyStore "A" "Diagnose this rash").1
          "B" "Prescribe antibiotics").1 "A"
        = (run_agent (fun _ => []) emptyStore "A" "Diagnose this rash").1 "A"
      ∧ (run_agent (fun _ => []) emptyStore "A" "Diagnose this rash").1 "A"
        = [⟨Role.user, "Diagnose this rash"⟩,
           ⟨Role.assistant, DIAGNOSIS_BLOCK⟩]) :=
  ⟨by decide,
    C9_thread_isolation (fun _ => []) emptyStore "A" "B" "look up records"
      (by decide)⟩

/-- Claim C3: on an allowed turn (one that reaches the reasoning agent), with
a reasoning engine that adds no user-role messages and whose final reply does
not itself contain the disclaimer, the final assistant text of the turn has
the fixed clinical disclaimer string if and only if re-classifying the
latest user turn (done afresh by the disclaimer node, which re-runs
`classify_input` after reasoning) yields `CLINICAL_SUPPORT`; in particular an
allowed `DATA_RETRIEVAL` input yields a final text without the disclaimer. -/
theorem C3_disclaimer_iff (history : List Message) (input r : String)
    (f : List Message → List Message)
    (ha : apply_scope_guard input = (true, none))
    (hfu : ∀ msg ∈ f (initialState history input), msg.role ≠ Role.user)
    (hlast : (f (initialState history input)).getLast?
      = some ⟨Role.assistant, r⟩)
    (hnod : containsSubstr r CLINICAL_DISCLAIMER = false) :
    containsSubstr (finalText (runTurn f history input)) CLINICAL_DISCLAIMER
        = true
      ↔ (classify_input input).1 = Category.CLINICAL_SUPPORT := by
  have h1 := runTurn_allowed f history input ha
  have hrt : runTurn f history input
      = disclaimerStep (initialState history input
          ++ f (initialState history input)) := by
    unfold runTurn
    rw [h1]
  set s0 := initialState history input with hs0
  set fo := f (initialState history input) with hfo
  have hfilter : ((s0 ++ fo).filter fun m => m.role == Role.user).getLast?
      = some ⟨Role.user, input⟩ := by
    rw [List.filter_append]
    have hef : fo.filter (fun m => m.role == Role.user) = [] := by
      rw [List.filter_eq_nil_iff]
      intro msg hmem
      have hne := hfu msg hmem
      simp [hne]
    rw [hef, List.append_nil, hs0]
    unfold initialState
    rw [List.filter_append]
    simp
  have hs2last : (s0 ++ fo).getLast? = some ⟨Role.assistant, r⟩ := by
    rw [List.getLast?_append, hlast]
    rfl
  by_cases hcs : (classify_input input).1 = Category.CLINICAL_SUPPORT
  · have hupd : append_disclaimer_update (s0 ++ fo)
        = [⟨Role.assistant, r ++ CLINICAL_DISCLAIMER⟩] := by
      unfold append_disclaimer_update
      dsimp only
      rw [hfilter]
      dsimp only
      rw [if_pos hcs, hs2last]
      dsimp only
      rw [if_pos rfl]
    have hfin : finalText (runTurn f history input)
        = r ++ CLINICAL_DISCLAIMER := by
      rw [hrt]
      unfold disclaimerStep
      rw [hupd]
      unfold finalText
      rw [List.getLast?_concat]
    rw [hfin]
    simp [hcs, containsSubstr_append_right]
  · have hupd : append_disclaimer_update (s0 ++ fo) = [] := by
      unfold append_disclaimer_update
      dsimp only
      rw [hfilter]
      dsimp only
      rw [if_neg hcs]
    have hfin : finalText (runTurn f history input) = r := by
      rw [hrt]
      unfold disclaimerStep
      rw [hupd, List.append_nil]
      unfold finalText
      rw [hs2last]
    rw [hfin, hnod]
    simp [hcs]

/-- Stub reasoning engine used in the C3 witness (spec end-to-end
scenario 5): replies with a fixed assistant message. -/
def stubInteractionReply : List Message → List Message :=
  fun _ => [⟨Role.assistant, "There is a known interaction."⟩]

/-- Witness for C3: the allowed clinical-support scenario with a stubbed
reasoning engine — the final text carries the disclaimer exactly because the
input re-classifies as `CLINICAL_SUPPORT`. -/
theorem C3_witness :
    apply_scope_guard "Check drug interaction between aspirin and warfarin"
      = (true, none)
    ∧ (∀ msg ∈ stubInteractionReply
          (initialState [] "Check drug interaction between aspirin and warfarin"),
        msg.role ≠ Role.user)
    ∧ (stubInteractionReply
          (initialState [] "Check drug interaction between aspirin and warfarin")).getLast?
        = some ⟨Role.assistant, "There is a known interaction."⟩
    ∧ containsSubstr "There is a known interaction." CLINICAL_DISCLAIMER = false
    ∧ (containsSubstr
        (finalText (runTurn stubInteractionReply []
          "Check drug interaction between aspirin and warfarin"))
        CLINICAL_DISCLAIMER = true
      ↔ (classify_input "Check drug interaction between aspirin and warfarin").1
          = Category.CLINICAL_SUPPORT) :=
  ⟨by decide, by decide, by decide, by decide,
    C3_disclaimer_iff [] "Check drug interaction between aspirin and warfarin"
      "There is a known interaction." stubInteractionReply
      (by decide) (by decide) (by decide) (by decide)⟩
